import Mathlib

/-!
Verification of the scale-calibration and spatial-measurement pipeline of the
VisionEstate backend (`backend/analyzer.py`, `backend/main.py`).

The embedding models Python floats by exact rationals (ℚ): every arithmetic
identity claimed by the specification is an exact-arithmetic identity, and the
code performs no operation whose correctness depends on binary floating-point
rounding.  Python's `round(x, n)` is modelled by rounding `x * 10^n` to the
nearest integer (Mathlib's `round`; Python breaks ties to even, Mathlib rounds
half up — no statement below depends on tie behaviour).  Python exceptions
(`ZeroDivisionError`) are modelled with `Except Unit`.
-/

/-- Python's `max(xs, key=k)`: the first element attaining the maximal key
(later elements replace the current best only when strictly greater). -/
def pickFirstMax {α : Type} (key : α → ℚ) : List α → Option α
  | [] => none
  | x :: xs => some (xs.foldl (fun acc y => if key acc < key y then y else acc) x)

/-- Specification-side selector: the element with the highest key, ties broken
by taking the earliest element in list order. -/
def specFirstMax {α : Type} (key : α → ℚ) : List α → Option α
  | [] => none
  | x :: xs =>
    match specFirstMax key xs with
    | none => some x
    | some b => if key x < key b then some b else some x

theorem foldl_firstMax_eq {α : Type} (key : α → ℚ) (xs : List α) (x : α) :
    xs.foldl (fun acc y => if key acc < key y then y else acc) x =
      (match specFirstMax key xs with
       | none => x
       | some b => if key x < key b then b else x) := by
  induction xs generalizing x with
  | nil => rfl
  | cons y ys ih =>
    simp only [List.foldl_cons, ih, specFirstMax]
    cases h : specFirstMax key ys with
    | none => simp
    | some b =>
      by_cases h1 : key x < key y
      · by_cases h2 : key y < key b
        · have h3 : key x < key b := lt_trans h1 h2
          simp [h1, h2, h3]
        · simp [h1, h2]
      · by_cases h2 : key y < key b
        · simp [h1, h2]
        · have h3 : ¬ key x < key b := fun hc =>
            h2 (lt_of_le_of_lt (le_of_not_lt h1) hc)
          simp [h1, h2, h3]

theorem pickFirstMax_eq_spec {α : Type} (key : α → ℚ) (l : List α) :
    pickFirstMax key l = specFirstMax key l := by
  cases l with
  | nil => rfl
  | cons x xs =>
    simp only [pickFirstMax, foldl_firstMax_eq, specFirstMax]
    cases h : specFirstMax key xs with
    | none => rfl
    | some c => exact apply_ite some (key x < key c) c x

theorem specFirstMax_mem {α : Type} (key : α → ℚ) (l : List α) (b : α)
    (h : specFirstMax key l = some b) : b ∈ l := by
  induction l with
  | nil => simp [specFirstMax] at h
  | cons x xs ih =>
    simp only [specFirstMax] at h
    cases hx : specFirstMax key xs with
    | none =>
      rw [hx] at h
      simp only [Option.some.injEq] at h
      simp [h]
    | some c =>
      rw [hx] at h
      dsimp only at h
      split_ifs at h with hc
      · injection h with h2
        subst h2
        exact List.mem_cons_of_mem x (ih hx)
      · injection h with h2
        subst h2
        exact List.mem_cons_self x xs

theorem specFirstMax_isSome {α : Type} (key : α → ℚ) (x : α) (xs : List α) :
    (specFirstMax key (x :: xs)).isSome := by
  simp only [specFirstMax]
  cases h : specFirstMax key xs with
  | none => rfl
  | some b => by_cases hc : key x < key b <;> simp [hc]

/-- Python `round(q, 1)` in exact arithmetic. -/
def round1 (q : ℚ) : ℚ := (round (q * 10) : ℚ) / 10

/-- Python `round(q, 2)` in exact arithmetic. -/
def round2 (q : ℚ) : ℚ := (round (q * 100) : ℚ) / 100

/-- Python's `str.lower()` on one character (ASCII range; every label and
catalog key involved is ASCII). -/
def charLower (c : Char) : Char :=
  if 'A' ≤ c ∧ c ≤ 'Z' then Char.ofNat (c.toNat + 32) else c

/-- Python's `str.lower()` (ASCII range). -/
def pyLower (s : String) : String := ⟨s.data.map charLower⟩

/-- Python's substring test `sub in s` on character lists. -/
def subListAt (sub : List Char) : List Char → Bool
  | [] => sub.isEmpty
  | c :: t => sub.isPrefixOf (c :: t) || subListAt sub t

/-- Python's `sub in s` for strings. -/
def pyIn (sub s : String) : Bool := subListAt sub.data s.data

/-- One detection record as produced by the object detector
(`{"label": ..., "confidence": ..., "bbox": [x, y, w, h], ...}`). -/
structure Detection where
  label : String
  confidence : ℚ
  bbox : List ℚ
  isCrack : Bool
  isCalibration : Bool
deriving DecidableEq

/-- One entry of `REFERENCE_OBJECTS` in `analyzer.py`. -/
structure RefData where
  width : ℚ
  height : ℚ
  priority : ℕ
deriving DecidableEq

/-- The `REFERENCE_OBJECTS` table of `analyzer.py`, in dict insertion order
(Python dict iteration follows insertion order). -/
def REFERENCE_OBJECTS : List (String × RefData) :=
  [("bed", ⟨1.9, 0.5, 1⟩),
   ("couch", ⟨2.0, 0.85, 2⟩),
   ("sofa", ⟨2.0, 0.85, 2⟩),
   ("chair", ⟨0.45, 0.9, 4⟩),
   ("dining table", ⟨1.2, 0.75, 3⟩),
   ("refrigerator", ⟨0.7, 1.7, 2⟩),
   ("tv", ⟨1.2, 0.7, 5⟩),
   ("door", ⟨0.9, 2.1, 1⟩),
   ("toilet", ⟨0.4, 0.4, 3⟩),
   ("oven", ⟨0.6, 0.9, 4⟩),
   ("sink", ⟨0.6, 0.2, 5⟩)]

/-- Loop state of `estimate_scale_from_reference_objects`
(`best_priority = 999`, `best_reference = None`, `best_m_per_px = None`). -/
structure EstState where
  best_priority : ℕ
  best_reference : Option String
  best_m_per_px : Option ℚ
deriving DecidableEq

/-- One iteration of the detection loop in
`estimate_scale_from_reference_objects` (analyzer.py lines 224-250).
The inner catalog loop `break`s after the first key that is a substring of the
lowered label; the division happens before the priority comparison, and a zero
denominator raises `ZeroDivisionError` (modelled as `.error ()`). -/
def estStep (st : EstState) (det : Detection) : Except Unit EstState :=
  if det.bbox.length < 4 then .ok st
  else
    match REFERENCE_OBJECTS.find? (fun p => pyIn p.1 (pyLower det.label)) with
    | none => .ok st
    | some (name, ref) =>
      if (if det.bbox.getD 3 0 < det.bbox.getD 2 0
          then det.bbox.getD 2 0 else det.bbox.getD 3 0) = 0 then .error ()
      else
        .ok (if ref.priority < st.best_priority
             then ⟨ref.priority, some name,
                   some ((if det.bbox.getD 3 0 < det.bbox.getD 2 0
                          then ref.width else ref.height) /
                         (if det.bbox.getD 3 0 < det.bbox.getD 2 0
                          then det.bbox.getD 2 0 else det.bbox.getD 3 0))⟩
             else st)

/-- The function `estimate_scale_from_reference_objects` (analyzer.py lines 215-259):
returns `(m_per_px, reference_object_used, confidence)`. -/
def estimate_scale_from_reference_objects (dets : List Detection) :
    Except Unit (Option ℚ × Option String × ℚ) := do
  let st ← dets.foldlM estStep ⟨999, none, none⟩
  match st.best_m_per_px with
  | some m =>
    return (some m, st.best_reference, max 0.5 (1 - ((st.best_priority : ℚ) - 1) * 0.1))
  | none => return (none, none, 0)


/-- A matched reference-object candidate: catalog key, its priority rank, the
per-detection scale the loop computes, and the pixel denominator it divides by
(the larger of the bbox width/height). -/
structure RefCand where
  name : String
  priority : ℕ
  scale : ℚ
  den : ℚ
deriving DecidableEq

/-- The reference-object candidate a single detection contributes (the first
catalog key that is a substring of the lowered label), with the scale the code
computes for it.  Division here is total ℚ-division; it agrees with the code
whenever the code does not raise (i.e. whenever `den ≠ 0`). -/
def detCand (det : Detection) : Option RefCand :=
  if det.bbox.length < 4 then none
  else
    match REFERENCE_OBJECTS.find? (fun p => pyIn p.1 (pyLower det.label)) with
    | none => none
    | some (name, ref) =>
      some ⟨name, ref.priority,
            (if det.bbox.getD 3 0 < det.bbox.getD 2 0 then ref.width else ref.height) /
              (if det.bbox.getD 3 0 < det.bbox.getD 2 0
               then det.bbox.getD 2 0 else det.bbox.getD 3 0),
            (if det.bbox.getD 3 0 < det.bbox.getD 2 0
             then det.bbox.getD 2 0 else det.bbox.getD 3 0)⟩

/-- All reference-object candidates of a detection list, in list order. -/
def matchedCands (dets : List Detection) : List RefCand :=
  dets.filterMap detCand

/-- Specification-side selector: the candidate with the lowest (best) priority
rank, ties broken by taking the first-encountered one. -/
def specFirstMinPriority : List RefCand → Option RefCand
  | [] => none
  | x :: xs =>
    match specFirstMinPriority xs with
    | none => some x
    | some b => if b.priority < x.priority then some b else some x

/-- The pure state update the loop performs for one matched candidate. -/
def pureEstStep (st : EstState) (c : RefCand) : EstState :=
  if c.priority < st.best_priority then ⟨c.priority, some c.name, some c.scale⟩ else st

theorem estStep_eq_detCand (st : EstState) (d : Detection) :
    estStep st d =
      (match detCand d with
       | none => .ok st
       | some c => if c.den = 0 then .error () else .ok (pureEstStep st c)) := by
  simp only [estStep, detCand]
  by_cases hlen : d.bbox.length < 4
  · simp [hlen]
  · simp only [if_neg hlen]
    cases hf : REFERENCE_OBJECTS.find? (fun p => pyIn p.1 (pyLower d.label)) with
    | none => rfl
    | some p =>
      obtain ⟨name, ref⟩ := p
      dsimp only
      split_ifs with hden h2 h3 <;> simp [pureEstStep, *]

theorem foldlM_estStep_ok (dets : List Detection) (st0 st : EstState)
    (h : dets.foldlM estStep st0 = .ok st) :
    st = (matchedCands dets).foldl pureEstStep st0 := by
  induction dets generalizing st0 with
  | nil =>
    simp only [List.foldlM] at h
    injection h with h2
    simp [matchedCands, h2]
  | cons d ds ih =>
    rw [List.foldlM_cons, estStep_eq_detCand] at h
    cases hc : detCand d with
    | none =>
      rw [hc] at h
      have h2 : List.foldlM estStep st0 ds = Except.ok st := h
      simpa [matchedCands, List.filterMap_cons, hc] using ih st0 h2
    | some c =>
      rw [hc] at h
      dsimp only at h
      by_cases hden : c.den = 0
      · rw [if_pos hden] at h
        have h2 : (Except.error () : Except Unit EstState) = Except.ok st := h
        exact absurd h2 (by simp)
      · rw [if_neg hden] at h
        have h2 : List.foldlM estStep (pureEstStep st0 c) ds = Except.ok st := h
        simpa [matchedCands, List.filterMap_cons, hc] using ih (pureEstStep st0 c) h2

theorem foldl_pureEstStep_eq (l : List RefCand) (st : EstState) :
    l.foldl pureEstStep st =
      (match specFirstMinPriority l with
       | none => st
       | some b =>
         if b.priority < st.best_priority
         then ⟨b.priority, some b.name, some b.scale⟩ else st) := by
  induction l generalizing st with
  | nil => rfl
  | cons x xs ih =>
    simp only [List.foldl_cons, ih, specFirstMinPriority]
    cases h : specFirstMinPriority xs with
    | none => simp [pureEstStep]
    | some b =>
      by_cases h1 : x.priority < st.best_priority
      · have hx : pureEstStep st x = ⟨x.priority, some x.name, some x.scale⟩ := by
          simp [pureEstStep, h1]
        rw [hx]
        by_cases h2 : b.priority < x.priority
        · have h3 : b.priority < st.best_priority := lt_trans h2 h1
          simp [h2, h3]
        · simp [h2, h1]
      · have hx : pureEstStep st x = st := by simp [pureEstStep, h1]
        rw [hx]
        by_cases h2 : b.priority < x.priority
        · simp [h2]
        · have h3 : ¬ b.priority < st.best_priority := by omega
          simp [h2, h3, h1]

theorem specFirstMinPriority_mem (l : List RefCand) (b : RefCand)
    (h : specFirstMinPriority l = some b) : b ∈ l := by
  induction l with
  | nil => simp [specFirstMinPriority] at h
  | cons x xs ih =>
    simp only [specFirstMinPriority] at h
    cases hx : specFirstMinPriority xs with
    | none =>
      rw [hx] at h
      simp only [Option.some.injEq] at h
      simp [h]
    | some c =>
      rw [hx] at h
      dsimp only at h
      split_ifs at h with hc
      · injection h with h2
        subst h2
        exact List.mem_cons_of_mem x (ih hx)
      · injection h with h2
        subst h2
        exact List.mem_cons_self x xs

theorem refObjects_priority_lt :
    ∀ p ∈ REFERENCE_OBJECTS, p.2.priority < 999 := by decide

theorem matchedCands_priority_lt (dets : List Detection) (c : RefCand)
    (hc : c ∈ matchedCands dets) : c.priority < 999 := by
  simp only [matchedCands, List.mem_filterMap] at hc
  obtain ⟨d, _, hd⟩ := hc
  by_cases hlen : d.bbox.length < 4
  · simp [detCand, hlen] at hd
  · simp only [detCand, if_neg hlen] at hd
    cases hf : REFERENCE_OBJECTS.find? (fun p => pyIn p.1 (pyLower d.label)) with
    | none => rw [hf] at hd; simp at hd
    | some p =>
      obtain ⟨name, ref⟩ := p
      rw [hf] at hd
      simp only [Option.some.injEq] at hd
      have hmem := List.mem_of_find?_eq_some hf
      have := refObjects_priority_lt (name, ref) hmem
      rw [← hd]
      exact this

/-- If no matched candidate has a zero denominator, the detection loop
completes without raising and computes the pure fold. -/
theorem foldlM_estStep_total (dets : List Detection) (st0 : EstState)
    (h : ∀ c ∈ matchedCands dets, c.den ≠ 0) :
    dets.foldlM estStep st0 = .ok ((matchedCands dets).foldl pureEstStep st0) := by
  induction dets generalizing st0 with
  | nil => rfl
  | cons d ds ih =>
    rw [List.foldlM_cons, estStep_eq_detCand]
    cases hc : detCand d with
    | none =>
      have h2 : ∀ c ∈ matchedCands ds, c.den ≠ 0 := by
        intro c hcm
        exact h c (by simp [matchedCands, List.filterMap_cons, hc] at hcm ⊢; exact hcm)
      have : matchedCands (d :: ds) = matchedCands ds := by
        simp [matchedCands, List.filterMap_cons, hc]
      rw [this]
      exact ih st0 h2
    | some c =>
      have hcden : c.den ≠ 0 := h c (by simp [matchedCands, List.filterMap_cons, hc])
      dsimp only
      rw [if_neg hcden]
      have h2 : ∀ e ∈ matchedCands ds, e.den ≠ 0 := by
        intro e hem
        exact h e (by simp [matchedCands, List.filterMap_cons, hc] at hem ⊢; right; exact hem)
      have : matchedCands (d :: ds) = c :: matchedCands ds := by
        simp [matchedCands, List.filterMap_cons, hc]
      rw [this, List.foldl_cons]
      exact ih (pureEstStep st0 c) h2

/-- Claim C7: among all detections matching a catalog key (and given that no
matched candidate's chosen pixel dimension is zero, so that the loop completes),
the estimator keeps the candidate whose catalog entry has the lowest priority
rank, ties broken by first-encountered order; it returns that candidate's scale
and key, and confidence `max(0.5, 1.0 - (priority - 1) * 0.1)`. -/
theorem C7_reference_priority_selection (dets : List Detection) (b : RefCand)
    (hb : specFirstMinPriority (matchedCands dets) = some b)
    (hden : ∀ c ∈ matchedCands dets, c.den ≠ 0) :
    estimate_scale_from_reference_objects dets =
      .ok (some b.scale, some b.name, max 0.5 (1 - ((b.priority : ℚ) - 1) * 0.1)) := by
  have htot := foldlM_estStep_total dets ⟨999, none, none⟩ hden
  have hfoldl := foldl_pureEstStep_eq (matchedCands dets) ⟨999, none, none⟩
  rw [hb] at hfoldl
  dsimp only at hfoldl
  have hblt : b.priority < 999 :=
    matchedCands_priority_lt dets b (specFirstMinPriority_mem _ b hb)
  rw [if_pos hblt] at hfoldl
  rw [hfoldl] at htot
  simp only [estimate_scale_from_reference_objects, htot, bind, Except.bind]
  rfl

/-- Witness for C7: a "door" detection (priority 1, 300×700 px box, so the
taller axis is used: 2.1 m / 700 px) beats a "chair" detection (priority 4). -/
theorem C7_reference_priority_selection_witness :
    specFirstMinPriority (matchedCands
      [{ label := "door", confidence := 0.9, bbox := [0, 0, 300, 700],
         isCrack := false, isCalibration := false },
       { label := "chair", confidence := 0.8, bbox := [10, 10, 50, 100],
         isCrack := false, isCalibration := false }]) =
      some ⟨"door", 1, 3 / 1000, 700⟩ ∧
    estimate_scale_from_reference_objects
      [{ label := "door", confidence := 0.9, bbox := [0, 0, 300, 700],
         isCrack := false, isCalibration := false },
       { label := "chair", confidence := 0.8, bbox := [10, 10, 50, 100],
         isCrack := false, isCalibration := false }] =
      .ok (some ((3 : ℚ) / 1000), some "door",
           max 0.5 (1 - (((1 : ℕ) : ℚ) - 1) * 0.1)) := by
  have hfd : REFERENCE_OBJECTS.find? (fun p => pyIn p.1 (pyLower "door")) =
      some ("door", ⟨0.9, 2.1, 1⟩) := by rfl
  have hfc : REFERENCE_OBJECTS.find? (fun p => pyIn p.1 (pyLower "chair")) =
      some ("chair", ⟨0.45, 0.9, 4⟩) := by rfl
  have hmc : matchedCands
      [{ label := "door", confidence := 0.9, bbox := [0, 0, 300, 700],
         isCrack := false, isCalibration := false },
       { label := "chair", confidence := 0.8, bbox := [10, 10, 50, 100],
         isCrack := false, isCalibration := false }] =
      [⟨"door", 1, 3 / 1000, 700⟩, ⟨"chair", 4, 9 / 1000, 100⟩] := by
    simp only [matchedCands, List.filterMap_cons, List.filterMap_nil, detCand, hfd, hfc]
    norm_num
  have hb : specFirstMinPriority (matchedCands
      [{ label := "door", confidence := 0.9, bbox := [0, 0, 300, 700],
         isCrack := false, isCalibration := false },
       { label := "chair", confidence := 0.8, bbox := [10, 10, 50, 100],
         isCrack := false, isCalibration := false }]) =
      some ⟨"door", 1, 3 / 1000, 700⟩ := by
    rw [hmc]
    norm_num [specFirstMinPriority]
  have hden : ∀ c ∈ matchedCands
      [{ label := "door", confidence := 0.9, bbox := [0, 0, 300, 700],
         isCrack := false, isCalibration := false },
       { label := "chair", confidence := 0.8, bbox := [10, 10, 50, 100],
         isCrack := false, isCalibration := false }], c.den ≠ 0 := by
    rw [hmc]
    intro c hcm
    fin_cases hcm <;> norm_num
  exact ⟨hb, C7_reference_priority_selection _ _ hb hden⟩

/-- Claim C2 (refuted, code bug): a detection whose bounding box is zero along
the chosen (larger) axis is not skipped; the estimator performs the division
and raises `ZeroDivisionError` (modelled `.error ()`): here a matching "bed"
detection with a 0×0 pixel box. -/
theorem C2_zero_box_division_raises :
    estimate_scale_from_reference_objects
      [{ label := "bed", confidence := 0.9, bbox := [0, 0, 0, 0],
         isCrack := false, isCalibration := false }] = .error () := by rfl

/-- One crack detection box in `xyxy` pixel coordinates (as delivered by the
crack detector; `detect_defects` derives `bw = x2 - x1`, `bh = y2 - y1`). -/
structure CrackBox where
  x1 : ℚ
  y1 : ℚ
  x2 : ℚ
  y2 : ℚ
deriving DecidableEq

/-- Python variable `total_crack_pixel_area`: running sum of `bw * bh` over all crack boxes. -/
def crackArea (boxes : List CrackBox) : ℚ :=
  (boxes.map (fun b => (b.x2 - b.x1) * (b.y2 - b.y1))).sum

/-- Python variable `max_crack_dim_px`: starts at 0 and takes `max(max_crack_dim_px, bw, bh)`
per box. -/
def maxCrackDim (boxes : List CrackBox) : ℚ :=
  boxes.foldl (fun m b => max (max m (b.x2 - b.x1)) (b.y2 - b.y1)) 0

/-- The `spatial_data` dict built by `detect_defects` (analyzer.py lines
376-415).  The two trailing `Option` fields model dict keys that this producer
never writes but that `main.py` later reads with `.get(..., default)`:
they are `none` (absent) in every record the analyzer builds. -/
structure SpatialData where
  width : ℚ
  height : ℚ
  length : ℚ
  area : ℚ
  room_type : String
  room_confidence : ℚ
  reference_object : Option String
  area_confidence : Option ℚ := none
  estimation_method : Option String := none
deriving DecidableEq

/-- The Measurement Synthesizer: section 5 of `detect_defects` (analyzer.py
lines 376-415).  `room_confidence` is the classifier softmax probability; the
dict stores `round(room_confidence * 100, 1)`. -/
def synthSpatial (m_per_px : Option ℚ) (reference_object : Option String)
    (room_type : String) (room_confidence : ℚ)
    (w_orig h_orig : ℕ) (crackBoxes : List CrackBox) : SpatialData :=
  let A := crackArea crackBoxes
  let D := maxCrackDim crackBoxes
  let base : SpatialData :=
    { width := 0, height := 0, length := 0, area := 0,
      room_type := room_type,
      room_confidence := round1 (room_confidence * 100),
      reference_object := reference_object }
  match m_per_px with
  | some s =>
    if A > 0 then
      { base with
        area := A * s ^ 2,
        length := D * s,
        width := (if D > 0 then A / D else 0) * s,
        height := (if D > 0 then A / D else 0) * s }
    else
      { base with
        area := ((w_orig : ℚ) * (h_orig : ℚ) * 0.6) * s ^ 2,
        width := (w_orig : ℚ) * s,
        length := (h_orig : ℚ) * s * 0.8,
        height := 2.7 }
  | none =>
    if A > 0 then
      { base with
        area := A,
        length := D,
        width := if D > 0 then A / D else 0 }
    else base

/-- The per-image inputs `detect_defects` gathers from its external
collaborators once the image loads: image dimensions, the (already
post-processed) room-type label and its softmax confidence from CLIP, the
result of `find_a4_calibration`, the object detections from YOLO, and the
crack boxes from the crack model. -/
structure ImgInputs where
  h_orig : ℕ
  w_orig : ℕ
  room_type : String
  room_confidence : ℚ
  a4 : Option (ℚ × List ℚ)
  object_detections : List Detection
  crack_boxes : List CrackBox

/-- The function `detect_defects` (analyzer.py lines 262-419), modelled from the point the
external model outputs are available.  `none` input is an unreadable image
(`cv2.imread` returned `None`).  The returned triple is
`(spatial_data, is_calibrated, [h_orig, w_orig])`; the augmented detection
list also returned by the code carries no measurement content and is outside
the modelled core.  A `ZeroDivisionError` escaping
`estimate_scale_from_reference_objects` propagates (`.error`). -/
def detect_defects (inp : Option ImgInputs) :
    Except Unit (SpatialData × Bool × (ℕ × ℕ)) := do
  match inp with
  | none =>
    return ({ width := 0, height := 0, length := 0, area := 0,
              room_type := "unknown", room_confidence := 0,
              reference_object := none }, false, (0, 0))
  | some i =>
    let (m_per_px, reference_object) ←
      match i.a4 with
      | some a => pure ((some a.1 : Option ℚ), (none : Option String))
      | none => do
        let res ← estimate_scale_from_reference_objects i.object_detections
        pure (res.1, res.2.1)
    return (synthSpatial m_per_px reference_object i.room_type i.room_confidence
              i.w_orig i.h_orig i.crack_boxes,
            m_per_px.isSome, (i.h_orig, i.w_orig))

theorem synthSpatial_room_confidence (m : Option ℚ) (ro : Option String)
    (rt : String) (rc : ℚ) (w h : ℕ) (boxes : List CrackBox) :
    (synthSpatial m ro rt rc w h boxes).room_confidence = round1 (rc * 100) := by
  cases m <;> simp only [synthSpatial] <;> split_ifs <;> rfl

theorem synthSpatial_method_absent (m : Option ℚ) (ro : Option String)
    (rt : String) (rc : ℚ) (w h : ℕ) (boxes : List CrackBox) :
    (synthSpatial m ro rt rc w h boxes).estimation_method = none ∧
    (synthSpatial m ro rt rc w h boxes).area_confidence = none := by
  cases m <;> simp only [synthSpatial] <;> split_ifs <;> exact ⟨rfl, rfl⟩

/-- Claim C9: an unreadable image yields an all-zero measurement with
`is_calibrated = false` (and the `[0, 0]` image size), and no exception. -/
theorem C9_unreadable_image_zero :
    detect_defects none =
      .ok ({ width := 0, height := 0, length := 0, area := 0,
             room_type := "unknown", room_confidence := 0,
             reference_object := none }, false, (0, 0)) := by rfl

/-- Claim C3 (refuted): on a calibrated image the Synthesizer's
`spatial_data` carries no `estimation_method` key at all (modelled `none`) —
not the value `"calibration_target"` the claim requires. -/
theorem C3_cex_estimation_method_absent :
    detect_defects (some ⟨8, 10, "Bedroom", 1 / 2, some (1 / 10, [0, 0, 5, 5]), [], []⟩) =
      .ok ({ width := 1, height := 2.7, length := 0.64, area := 0.48,
             room_type := "Bedroom", room_confidence := 50,
             reference_object := none, area_confidence := none,
             estimation_method := none }, true, (8, 10)) ∧
    (none : Option String) ≠ some "calibration_target" := by
  constructor
  · have hstep : detect_defects
        (some ⟨8, 10, "Bedroom", 1 / 2, some (1 / 10, [0, 0, 5, 5]), [], []⟩) =
        .ok (synthSpatial (some (1 / 10)) none "Bedroom" (1 / 2) 10 8 [],
             true, (8, 10)) := rfl
    rw [hstep]
    norm_num [synthSpatial, crackArea, round1, round_eq]
  · simp

/-- Claim C3 (amended): every `spatial_data` record `detect_defects` returns
carries no `estimation_method` (and no `area_confidence`) key; downstream
readers using `.get("estimation_method", "unknown")` therefore see
`"unknown"`, never the enum values. -/
theorem C3_estimation_method_never_set (inp : Option ImgInputs)
    (r : SpatialData × Bool × (ℕ × ℕ)) (h : detect_defects inp = .ok r) :
    r.1.estimation_method = none ∧ r.1.area_confidence = none := by
  cases inp with
  | none =>
    simp only [detect_defects] at h
    have h2 := Except.ok.inj h
    rw [← h2]
    exact ⟨rfl, rfl⟩
  | some i =>
    simp only [detect_defects] at h
    cases ha : i.a4 with
    | some a =>
      rw [ha] at h
      have h2 := Except.ok.inj h
      rw [← h2]
      exact synthSpatial_method_absent _ _ _ _ _ _ _
    | none =>
      rw [ha] at h
      cases hr : estimate_scale_from_reference_objects i.object_detections with
      | error e =>
        rw [hr] at h
        exact absurd (show Except.error e = Except.ok r from h) (by simp)
      | ok res =>
        rw [hr] at h
        have h2 := Except.ok.inj h
        rw [← h2]
        exact synthSpatial_method_absent _ _ _ _ _ _ _

/-- Witness for C3 (amended), at the unreadable-image input. -/
theorem C3_estimation_method_never_set_witness :
    ({ width := 0, height := 0, length := 0, area := 0,
       room_type := "unknown", room_confidence := 0,
       reference_object := none } : SpatialData).estimation_method = none ∧
    ({ width := 0, height := 0, length := 0, area := 0,
       room_type := "unknown", room_confidence := 0,
       reference_object := none } : SpatialData).area_confidence = none :=
  C3_estimation_method_never_set none
    ({ width := 0, height := 0, length := 0, area := 0,
       room_type := "unknown", room_confidence := 0,
       reference_object := none }, false, (0, 0)) (by rfl)

/-- Claim C4 (refuted as stated): a calibrated image with one crack detection
whose box is degenerate (width 5, height 0, so aggregate pixel area A = 0)
does not get crack measurements `area = A * s² = 0`: the code branches on
`total_crack_pixel_area > 0` and instead produces the floor estimate
(area 6000 here). -/
theorem C4_cex_zero_area_crack :
    (synthSpatial (some 1) none "Bedroom" (1 / 2) 100 100 [⟨0, 0, 5, 0⟩]).area = 6000 ∧
    crackArea [⟨0, 0, 5, 0⟩] * (1 : ℚ) ^ 2 = 0 ∧
    (6000 : ℚ) ≠ 0 := by
  refine ⟨?_, by norm_num [crackArea], by norm_num⟩
  norm_num [synthSpatial, crackArea]

/-- Claim C4 (amended): for every calibrated image whose crack boxes have
positive total pixel area A (with D the maximal single-box dimension), the
Synthesizer outputs `area = A * s²`, `length = D * s`,
`width = (A / D) * s` when `D > 0` and `0` otherwise, and `height = width`. -/
theorem C4_crack_measurement_formulas (s : ℚ) (ro : Option String)
    (rt : String) (rc : ℚ) (w h : ℕ) (boxes : List CrackBox)
    (hA : 0 < crackArea boxes) :
    (synthSpatial (some s) ro rt rc w h boxes).area = crackArea boxes * s ^ 2 ∧
    (synthSpatial (some s) ro rt rc w h boxes).length = maxCrackDim boxes * s ∧
    (synthSpatial (some s) ro rt rc w h boxes).width =
      (if 0 < maxCrackDim boxes then crackArea boxes / maxCrackDim boxes else 0) * s ∧
    (synthSpatial (some s) ro rt rc w h boxes).height =
      (synthSpatial (some s) ro rt rc w h boxes).width := by
  simp [synthSpatial, hA]

/-- Witness for C4 (amended): one 10×5 px crack box at scale 1/100 m/px. -/
theorem C4_crack_measurement_formulas_witness :
    0 < crackArea [⟨0, 0, 10, 5⟩] ∧
    ((synthSpatial (some (1 / 100)) none "Kitchen" (1 / 2) 50 50
        [⟨0, 0, 10, 5⟩]).area = crackArea [⟨0, 0, 10, 5⟩] * (1 / 100 : ℚ) ^ 2 ∧
     (synthSpatial (some (1 / 100)) none "Kitchen" (1 / 2) 50 50
        [⟨0, 0, 10, 5⟩]).length = maxCrackDim [⟨0, 0, 10, 5⟩] * (1 / 100) ∧
     (synthSpatial (some (1 / 100)) none "Kitchen" (1 / 2) 50 50
        [⟨0, 0, 10, 5⟩]).width =
       (if 0 < maxCrackDim [⟨0, 0, 10, 5⟩]
        then crackArea [⟨0, 0, 10, 5⟩] / maxCrackDim [⟨0, 0, 10, 5⟩] else 0) * (1 / 100) ∧
     (synthSpatial (some (1 / 100)) none "Kitchen" (1 / 2) 50 50
        [⟨0, 0, 10, 5⟩]).height =
       (synthSpatial (some (1 / 100)) none "Kitchen" (1 / 2) 50 50
        [⟨0, 0, 10, 5⟩]).width) :=
  ⟨by norm_num [crackArea],
   C4_crack_measurement_formulas (1 / 100) none "Kitchen" (1 / 2) 50 50
     [⟨0, 0, 10, 5⟩] (by norm_num [crackArea])⟩

/-- Claim C5: for every calibrated image with no crack detections the
Synthesizer outputs `area = 0.6 * w * h * s²`, `width = w * s`,
`length = h * s * 0.8`, `height = 2.7`; in particular for `s = 0.001` and a
1000×800 image: area 0.48, width 1, length 0.64, height 2.7 exactly. -/
theorem C5_floor_estimate_formulas :
    (∀ (s : ℚ) (ro : Option String) (rt : String) (rc : ℚ) (w h : ℕ),
      (synthSpatial (some s) ro rt rc w h []).area = 0.6 * (w : ℚ) * (h : ℚ) * s ^ 2 ∧
      (synthSpatial (some s) ro rt rc w h []).width = (w : ℚ) * s ∧
      (synthSpatial (some s) ro rt rc w h []).length = (h : ℚ) * s * 0.8 ∧
      (synthSpatial (some s) ro rt rc w h []).height = 2.7) ∧
    ((synthSpatial (some (1 / 1000)) none "Bedroom" 0 1000 800 []).area = 0.48 ∧
     (synthSpatial (some (1 / 1000)) none "Bedroom" 0 1000 800 []).width = 1 ∧
     (synthSpatial (some (1 / 1000)) none "Bedroom" 0 1000 800 []).length = 0.64 ∧
     (synthSpatial (some (1 / 1000)) none "Bedroom" 0 1000 800 []).height = 2.7) := by
  constructor
  · intro s ro rt rc w h
    refine ⟨?_, ?_, ?_, ?_⟩ <;>
      · simp only [synthSpatial, crackArea, List.map_nil, List.sum_nil, gt_iff_lt,
          lt_self_iff_false, if_false]
        try ring
  · norm_num [synthSpatial, crackArea]

/-- Claim C8 (refuted): `room_confidence` as stored in `spatial_data` is the
classifier probability times 100 (rounded to one decimal): probability 0.9 is
stored as 90, which is not in [0, 1]. -/
theorem C8_cex_room_confidence_percent :
    (synthSpatial none none "Bedroom" (9 / 10) 100 100 []).room_confidence = 90 ∧
    ¬ ((90 : ℚ) ≤ 1) := by
  refine ⟨?_, by norm_num⟩
  rw [synthSpatial_room_confidence]
  norm_num [round1, round_eq]

/-- Claim C8 (amended): for every classifier probability in [0, 1], the stored
`room_confidence` lies in [0, 100] (it is the probability × 100, rounded to
one decimal). -/
theorem C8_room_confidence_percent_bounds (m : Option ℚ) (ro : Option String)
    (rt : String) (rc : ℚ) (w h : ℕ) (boxes : List CrackBox)
    (h0 : 0 ≤ rc) (h1 : rc ≤ 1) :
    0 ≤ (synthSpatial m ro rt rc w h boxes).room_confidence ∧
    (synthSpatial m ro rt rc w h boxes).room_confidence ≤ 100 := by
  rw [synthSpatial_room_confidence]
  unfold round1
  constructor
  · have hlo : (0 : ℤ) ≤ round (rc * 100 * 10) := by
      rw [round_eq]
      have hstep : ((0 : ℚ) + 1 / 2) ≤ rc * 100 * 10 + 1 / 2 := by nlinarith
      have h4 := Int.floor_mono hstep
      have h3 : ⌊((0 : ℚ) + 1 / 2)⌋ = 0 := by norm_num
      rw [h3] at h4
      exact h4
    have : (0 : ℚ) ≤ (round (rc * 100 * 10) : ℚ) := by exact_mod_cast hlo
    linarith
  · have hhi : round (rc * 100 * 10) ≤ 1000 := by
      rw [round_eq]
      have hstep : rc * 100 * 10 + 1 / 2 ≤ (1000 : ℚ) + 1 / 2 := by nlinarith
      have h2 := Int.floor_mono hstep
      have h3 : ⌊(1000 : ℚ) + 1 / 2⌋ = 1000 := by norm_num
      rw [h3] at h2
      exact h2
    have : (round (rc * 100 * 10) : ℚ) ≤ 1000 := by exact_mod_cast hhi
    linarith

/-- Witness for C8 (amended) at probability 1/2. -/
theorem C8_room_confidence_percent_bounds_witness :
    (0 : ℚ) ≤ 1 / 2 ∧ (1 / 2 : ℚ) ≤ 1 ∧
    (0 ≤ (synthSpatial none none "Office" (1 / 2) 10 10 []).room_confidence ∧
     (synthSpatial none none "Office" (1 / 2) 10 10 []).room_confidence ≤ 100) :=
  ⟨by norm_num, by norm_num,
   C8_room_confidence_percent_bounds none none "Office" (1 / 2) 10 10 []
     (by norm_num) (by norm_num)⟩

/-- Per-image `area_confidence` as the Fuser reads it:
`spatial.get("area_confidence", 0)`. -/
def acnf (s : SpatialData) : ℚ := s.area_confidence.getD 0

/-- The `fused_spatial` dict (main.py lines 102-110).  The `Option` fields
model dict keys that are present only in the non-empty branch. -/
structure FusedSpatial where
  width : ℚ
  height : ℚ
  length : ℚ
  area : ℚ
  area_confidence : Option ℚ
  estimation_method : Option String
  reference_object : Option String
deriving DecidableEq

/-- The response of the `/reconstruct-room` endpoint (main.py lines 135-143),
restricted to the fused fields (the echoed per-image detection lists carry no
measurement content). -/
structure ReconstructOutput where
  spatial_data : FusedSpatial
  room_type : String
  room_confidence : ℚ
  overall_confidence : ℚ
  needs_user_confirmation : Bool
deriving DecidableEq

/-- One step of the room-vote accumulation (main.py lines 114-120): Python
dict keyed by room type, keys in first-seen order, confidences summed. -/
def addVote (votes : List (String × ℚ)) (ty : String) (conf : ℚ) :
    List (String × ℚ) :=
  if votes.any (fun p => p.1 = ty) then
    votes.map (fun p => if p.1 = ty then (p.1, p.2 + conf) else p)
  else votes ++ [(ty, conf)]

/-- Python dict `room_votes` accumulated over the per-image room types. -/
def roomVotes (rts : List (String × ℚ)) : List (String × ℚ) :=
  rts.foldl (fun acc rt => addVote acc rt.1 rt.2) []

/-- Room-type voting (main.py lines 113-126): the label with the highest
accumulated confidence (`max` over the dict keeps the first maximal key in
insertion order), its fused confidence the accumulated sum divided by the
number of images; `("unknown", 0)` when there are no images. -/
def bestRoomPair (all_spatial : List SpatialData) : String × ℚ :=
  match pickFirstMax (fun p => p.2)
      (roomVotes (all_spatial.map (fun s => (s.room_type, s.room_confidence)))) with
  | some p => (p.1, p.2 / (all_spatial.length : ℚ))
  | none => ("unknown", 0)

/-- The Multi-Image Fuser: the fusion part of the `/reconstruct-room` endpoint
(main.py lines 98-143), as a function of the collected per-image
`spatial_data` records.  `best_idx = max(range(len), key=...area_confidence)`
keeps the first maximum; `max(room_votes, key=room_votes.get)` likewise.
`needs_user_confirmation` compares the unrounded overall confidence to 70. -/
def reconstruct_room_fuse (all_spatial : List SpatialData) : ReconstructOutput :=
  match pickFirstMax acnf all_spatial with
  | some best =>
    { spatial_data :=
        { width := best.width,
          height := best.height,
          length := best.length,
          area := round2 best.area,
          area_confidence := some (acnf best),
          estimation_method := some (best.estimation_method.getD "unknown"),
          reference_object := best.reference_object },
      room_type := (bestRoomPair all_spatial).1,
      room_confidence := round1 (bestRoomPair all_spatial).2,
      overall_confidence := round1 ((acnf best + (bestRoomPair all_spatial).2) / 2),
      needs_user_confirmation :=
        decide ((acnf best + (bestRoomPair all_spatial).2) / 2 < 70) }
  | none =>
    { spatial_data :=
        { width := 0, height := 0, length := 0, area := 0,
          area_confidence := none, estimation_method := none,
          reference_object := none },
      room_type := "unknown",
      room_confidence := round1 0,
      overall_confidence := round1 0,
      needs_user_confirmation := decide ((0 : ℚ) < 70) }

/-- Claim C10: the Fuser on the empty measurement list returns all-zero
measurements, room type "unknown" with confidence 0, overall confidence 0,
and `needs_user_confirmation = true`, without raising. -/
theorem C10_empty_fusion_defaults :
    reconstruct_room_fuse [] =
      { spatial_data :=
          { width := 0, height := 0, length := 0, area := 0,
            area_confidence := none, estimation_method := none,
            reference_object := none },
        room_type := "unknown",
        room_confidence := 0,
        overall_confidence := 0,
        needs_user_confirmation := true } := by
  norm_num [reconstruct_room_fuse, round1, round_eq, pickFirstMax]

/-- Demo records for the Fuser, with area confidences 0.9 / 0.4 / 0.6. -/
def fuseDemo1 : SpatialData :=
  { width := 4, height := 2.7, length := 5, area := 20,
    room_type := "Bedroom", room_confidence := 80,
    reference_object := some "bed", area_confidence := some (9 / 10),
    estimation_method := some "reference_object" }

def fuseDemo2 : SpatialData :=
  { width := 1, height := 1, length := 1, area := 1,
    room_type := "Kitchen", room_confidence := 30,
    reference_object := none, area_confidence := some (2 / 5),
    estimation_method := some "none" }

def fuseDemo3 : SpatialData :=
  { width := 2, height := 2, length := 2, area := 4,
    room_type := "Bedroom", room_confidence := 60,
    reference_object := none, area_confidence := some (3 / 5),
    estimation_method := some "calibration_target" }

/-- Claim C1 (refuted as stated): the fused `area` is not copied field-for-field
from the best record — it is rounded to 2 decimals (`round(best area, 2)`):
a best record with area 0.333 fuses to area 0.33. -/
theorem C1_cex_area_rounded :
    (reconstruct_room_fuse
      [{ width := 1, height := 2, length := 3, area := 333 / 1000,
         room_type := "Bedroom", room_confidence := 50,
         reference_object := none, area_confidence := some (9 / 10),
         estimation_method := some "calibration_target" }]).spatial_data.area =
      33 / 100 ∧
    (33 / 100 : ℚ) ≠ 333 / 1000 := by
  constructor
  · norm_num [reconstruct_room_fuse, pickFirstMax, round2, round_eq]
  · norm_num

/-- Claim C1 (amended): for every non-empty list of measurement records, the
fused `width`/`height`/`length`/`estimation_method`/`reference_object` equal,
field for field, those of the record with the highest `area_confidence` (ties:
earliest in list order; no averaging), while the fused `area` is that record's
`area` rounded to two decimal places. -/
theorem C1_fuser_copies_best_record (l : List SpatialData) (b : SpatialData)
    (hb : specFirstMax acnf l = some b) (hem : b.estimation_method.isSome) :
    (reconstruct_room_fuse l).spatial_data.width = b.width ∧
    (reconstruct_room_fuse l).spatial_data.height = b.height ∧
    (reconstruct_room_fuse l).spatial_data.length = b.length ∧
    (reconstruct_room_fuse l).spatial_data.area = round2 b.area ∧
    (reconstruct_room_fuse l).spatial_data.estimation_method = b.estimation_method ∧
    (reconstruct_room_fuse l).spatial_data.reference_object = b.reference_object := by
  have hp : pickFirstMax acnf l = some b := by
    rw [pickFirstMax_eq_spec]
    exact hb
  obtain ⟨em, hv⟩ := Option.isSome_iff_exists.mp hem
  refine ⟨?_, ?_, ?_, ?_, ?_, ?_⟩ <;> simp [reconstruct_room_fuse, hp, hv]

/-- Witness for C1 (amended): three records with area confidences
[0.9, 0.4, 0.6]; the fused record copies the first (0.9) one. -/
theorem C1_fuser_copies_best_record_witness :
    specFirstMax acnf [fuseDemo1, fuseDemo2, fuseDemo3] = some fuseDemo1 ∧
    ((reconstruct_room_fuse [fuseDemo1, fuseDemo2, fuseDemo3]).spatial_data.width =
        fuseDemo1.width ∧
     (reconstruct_room_fuse [fuseDemo1, fuseDemo2, fuseDemo3]).spatial_data.height =
        fuseDemo1.height ∧
     (reconstruct_room_fuse [fuseDemo1, fuseDemo2, fuseDemo3]).spatial_data.length =
        fuseDemo1.length ∧
     (reconstruct_room_fuse [fuseDemo1, fuseDemo2, fuseDemo3]).spatial_data.area =
        round2 fuseDemo1.area ∧
     (reconstruct_room_fuse [fuseDemo1, fuseDemo2, fuseDemo3]).spatial_data.estimation_method =
        fuseDemo1.estimation_method ∧
     (reconstruct_room_fuse [fuseDemo1, fuseDemo2, fuseDemo3]).spatial_data.reference_object =
        fuseDemo1.reference_object) := by
  have hb : specFirstMax acnf [fuseDemo1, fuseDemo2, fuseDemo3] = some fuseDemo1 := by
    norm_num [specFirstMax, acnf, fuseDemo1, fuseDemo2, fuseDemo3]
  exact ⟨hb, C1_fuser_copies_best_record [fuseDemo1, fuseDemo2, fuseDemo3]
    fuseDemo1 hb (by norm_num [fuseDemo1])⟩

/-- The per-contour geometric features `find_a4_calibration` computes with
OpenCV (analyzer.py lines 84-159): contour area, vertex count of the polygon
approximation (4% perimeter tolerance), the two side lengths of
`cv2.minAreaRect`, mean lightness and mean saturation inside the contour mask,
convex-hull area, and the axis-aligned `cv2.boundingRect` of the contour. -/
structure ContourData where
  area : ℚ
  nvert : ℕ
  rw : ℚ
  rh : ℚ
  meanL : ℚ
  meanSat : ℚ
  hullArea : ℚ
  bbX : ℚ
  bbY : ℚ
  bbW : ℚ
  bbH : ℚ
deriving DecidableEq

/-- A surviving calibration candidate (score, minAreaRect sides, bounding box of
the contour). -/
structure Candidate where
  score : ℚ
  rw : ℚ
  rh : ℚ
  bbX : ℚ
  bbY : ℚ
  bbW : ℚ
  bbH : ℚ
deriving DecidableEq

/-- The main candidate filter and scoring of `find_a4_calibration`
(analyzer.py lines 84-159), per contour. -/
def mkCandidate (hImg wImg : ℕ) (c : ContourData) : Option Candidate :=
  if c.area < (hImg : ℚ) * (wImg : ℚ) * 0.003 ∨ c.area > (hImg : ℚ) * (wImg : ℚ) * 0.3 then
    none
  else if c.nvert < 4 ∨ c.nvert > 6 then none
  else if min c.rw c.rh = 0 then none
  else if max c.rw c.rh / min c.rw c.rh < 1.2 ∨ max c.rw c.rh / min c.rw c.rh > 1.7 then
    none
  else if c.meanL < 140 then none
  else if c.meanSat > 40 then none
  else if (if c.hullArea > 0 then c.area / c.hullArea else 0) < 0.75 then none
  else
    some { score :=
             (1 - |max c.rw c.rh / min c.rw c.rh - 1.414| / 1.414) * 0.35 +
             min (c.meanL / 255) 1 * 0.25 +
             (if c.hullArea > 0 then c.area / c.hullArea else 0) * 0.2 +
             (1 - c.meanSat / 100) * 0.15 +
             min (c.area / ((hImg : ℚ) * (wImg : ℚ) * 0.1)) 1 * 0.05,
           rw := c.rw, rh := c.rh,
           bbX := c.bbX, bbY := c.bbY, bbW := c.bbW, bbH := c.bbH }

/-- The fallback bright-region pass (analyzer.py lines 161-186), per contour of
the brightness-thresholded image: fixed score 0.5. -/
def mkFallbackCandidate (hImg wImg : ℕ) (c : ContourData) : Option Candidate :=
  if c.area > (hImg : ℚ) * (wImg : ℚ) * 0.003 then
    if 4 ≤ c.nvert then
      if 0 < min c.rw c.rh then
        if 1.2 ≤ max c.rw c.rh / min c.rw c.rh ∧ max c.rw c.rh / min c.rw c.rh ≤ 1.7 then
          some { score := 0.5, rw := c.rw, rh := c.rh,
                 bbX := c.bbX, bbY := c.bbY, bbW := c.bbW, bbH := c.bbH }
        else none
      else none
    else none
  else none

/-- The candidate list after the fallback pass: the fallback contours are only
consulted when the main pass yields no candidate. -/
def a4Candidates (hImg wImg : ℕ) (contours fallbackContours : List ContourData) :
    List Candidate :=
  if (contours.filterMap (mkCandidate hImg wImg)).isEmpty then
    fallbackContours.filterMap (mkFallbackCandidate hImg wImg)
  else contours.filterMap (mkCandidate hImg wImg)

/-- The function `find_a4_calibration` (analyzer.py lines 188-212) from the candidate stage:
pick the best-scoring candidate (`max`, first on ties), return
`0.297 / long_side_px` and the candidate contour's bounding box, or
`(None, None)` when no candidate survives. -/
def find_a4_calibration (hImg wImg : ℕ) (contours fallbackContours : List ContourData) :
    Option (ℚ × List ℚ) :=
  match pickFirstMax Candidate.score (a4Candidates hImg wImg contours fallbackContours) with
  | none => none
  | some best =>
    some (0.297 / max best.rw best.rh, [best.bbX, best.bbY, best.bbW, best.bbH])

theorem mkCandidate_long_side_pos (hImg wImg : ℕ) (c : ContourData) (cand : Candidate)
    (h : mkCandidate hImg wImg c = some cand) (hrw : 0 ≤ c.rw) (hrh : 0 ≤ c.rh) :
    0 < max cand.rw cand.rh := by
  simp only [mkCandidate] at h
  split_ifs at h with h1 h2 h3 h4 h5 h6 h7 h8
  all_goals
    injection h with h9
    have hmin : 0 < min c.rw c.rh := lt_of_le_of_ne (le_min hrw hrh) (Ne.symm h3)
    rw [← h9]
    exact lt_of_lt_of_le hmin min_le_max

theorem mkFallbackCandidate_long_side_pos (hImg wImg : ℕ) (c : ContourData)
    (cand : Candidate) (h : mkFallbackCandidate hImg wImg c = some cand) :
    0 < max cand.rw cand.rh := by
  simp only [mkFallbackCandidate] at h
  split_ifs at h with h1 h2 h3 h4
  all_goals
    injection h with h9
    rw [← h9]
    exact lt_of_lt_of_le h3 min_le_max

theorem a4Candidates_long_side_pos (hImg wImg : ℕ)
    (contours fcs : List ContourData) (cand : Candidate)
    (hmem : cand ∈ a4Candidates hImg wImg contours fcs)
    (hnn : ∀ cd ∈ contours ++ fcs, 0 ≤ cd.rw ∧ 0 ≤ cd.rh) :
    0 < max cand.rw cand.rh := by
  simp only [a4Candidates] at hmem
  split_ifs at hmem with hempty
  · simp only [List.mem_filterMap] at hmem
    obtain ⟨cd, hcd, hmk⟩ := hmem
    exact mkFallbackCandidate_long_side_pos hImg wImg cd cand hmk
  · simp only [List.mem_filterMap] at hmem
    obtain ⟨cd, hcd, hmk⟩ := hmem
    have := hnn cd (List.mem_append_left _ hcd)
    exact mkCandidate_long_side_pos hImg wImg cd cand hmk this.1 this.2

/-- Claim C6: whenever at least one candidate survives (and the minAreaRect
side lengths are non-negative, as OpenCV guarantees), the Locator picks the
maximum-scoring candidate (first in order on ties) and returns
`scale = 0.297 / (longer minAreaRect side)` together with the candidate's
axis-aligned bounding box; the returned scale is strictly positive. -/
theorem C6_a4_scale_selection (hImg wImg : ℕ) (contours fcs : List ContourData)
    (hnn : ∀ cd ∈ contours ++ fcs, 0 ≤ cd.rw ∧ 0 ≤ cd.rh)
    (b : Candidate)
    (hb : specFirstMax Candidate.score (a4Candidates hImg wImg contours fcs) = some b) :
    find_a4_calibration hImg wImg contours fcs =
      some (0.297 / max b.rw b.rh, [b.bbX, b.bbY, b.bbW, b.bbH]) ∧
    0 < (0.297 : ℚ) / max b.rw b.rh := by
  have hp : pickFirstMax Candidate.score (a4Candidates hImg wImg contours fcs) = some b := by
    rw [pickFirstMax_eq_spec]
    exact hb
  constructor
  · simp [find_a4_calibration, hp]
  · have hmem := specFirstMax_mem Candidate.score _ b hb
    have hpos := a4Candidates_long_side_pos hImg wImg contours fcs b hmem hnn
    have h297 : (0 : ℚ) < 0.297 := by norm_num
    exact div_pos h297 hpos

/-- Demo contour for the Locator: a bright, unsaturated, solid quadrilateral of
exactly the document aspect ratio (500×707 px) in a 1000×1000 image. -/
def demoContour : ContourData :=
  { area := 100000, nvert := 4, rw := 500, rh := 707,
    meanL := 255, meanSat := 0, hullArea := 100000,
    bbX := 5, bbY := 6, bbW := 510, bbH := 715 }

/-- The candidate `demoContour` produces (all five score terms maximal). -/
def demoCandidate : Candidate :=
  { score := 1, rw := 500, rh := 707, bbX := 5, bbY := 6, bbW := 510, bbH := 715 }

/-- Witness for C6 at the demo contour. -/
theorem C6_a4_scale_selection_witness :
    (∀ cd ∈ [demoContour] ++ ([] : List ContourData), 0 ≤ cd.rw ∧ 0 ≤ cd.rh) ∧
    specFirstMax Candidate.score (a4Candidates 1000 1000 [demoContour] []) =
      some demoCandidate ∧
    (find_a4_calibration 1000 1000 [demoContour] [] =
       some (0.297 / max demoCandidate.rw demoCandidate.rh,
             [demoCandidate.bbX, demoCandidate.bbY, demoCandidate.bbW, demoCandidate.bbH]) ∧
     0 < (0.297 : ℚ) / max demoCandidate.rw demoCandidate.rh) := by
  have h1 : ∀ cd ∈ [demoContour] ++ ([] : List ContourData), 0 ≤ cd.rw ∧ 0 ≤ cd.rh := by
    intro cd hcd
    fin_cases hcd
    norm_num [demoContour]
  have hmk : mkCandidate 1000 1000 demoContour = some demoCandidate := by
    norm_num [mkCandidate, demoContour, demoCandidate, abs_sub_comm]
  have hcands : a4Candidates 1000 1000 [demoContour] [] = [demoCandidate] := by
    simp [a4Candidates, hmk]
  have hb : specFirstMax Candidate.score (a4Candidates 1000 1000 [demoContour] []) =
      some demoCandidate := by
    rw [hcands]
    rfl
  exact ⟨h1, hb, C6_a4_scale_selection 1000 1000 [demoContour] [] h1 demoCandidate hb⟩
